import Mathlib

/-!
Verification development for the multi-exchange orderbook monitor
(Go sources: the supervisor `main` package, `internal/collector`, and
`internal/database/supabase_api.go`).

Shallow embedding conventions:
* `github.com/shopspring/decimal` values are embedded as `ℚ`: the decimal
  package performs exact decimal arithmetic, and the additions, subtractions
  and halvings appearing in this code are exact at the precision used, so
  rational arithmetic mirrors them.
* `InexactFloat64` (the conversion to binary float at the persistence
  boundary) is embedded as the identity on `ℚ`; the claims checked here
  concern which decimal value is handed to that conversion and whether a
  field is null, never binary-float rounding itself.
* Effects (environment lookup, HTTP, the database sink) are parameters of
  the embedded functions; traces of supervisor/pipeline events model the
  sequential order of calls made by one pipeline goroutine.
-/

/-- Statistics derived from one order book, as consumed by the collector and
the stats printer (`types.Stats`; field set taken from its uses in
`collector.go` and `printCombinedStats`).  An empty side is reported with a
zero best price, which the code tests via `IsZero`. -/
structure Stats where
  bestBid : ℚ
  bestAsk : ℚ
  spread : ℚ
  bidLiquidity05Pct : ℚ
  askLiquidity05Pct : ℚ
  bidLiquidity2Pct : ℚ
  askLiquidity2Pct : ℚ
  bidLiquidity10Pct : ℚ
  askLiquidity10Pct : ℚ
  deltaLiquidity05Pct : ℚ
  deltaLiquidity2Pct : ℚ
  deltaLiquidity10Pct : ℚ
  totalBidsQty : ℚ
  totalAsksQty : ℚ
  deriving DecidableEq

/-- The view of one registered order book that the collector and the printer
read: `IsInitialized()` and `GetStats()` (the book's internals live in the
`orderbook` package and are irrelevant to these consumers). -/
structure BookView where
  initialized : Bool
  stats : Stats
  deriving DecidableEq

/-- Conversion of an exact decimal to a binary float at the persistence
boundary (`decimal.Decimal.InexactFloat64`).  Embedded as the identity on
`ℚ`: rounding of binary floats is outside this model. -/
def inexactFloat64 (q : ℚ) : ℚ := q

/-- `database.OrderbookSnapshotAPI`: the row shipped to the REST sink.
Numeric fields are `*float64` in Go, hence `Option ℚ` here (`none` = null).
The timestamp (`time.Time`) is abstracted to a `Nat` clock value. -/
structure OrderbookSnapshotAPI where
  exchange : String
  symbol : String
  timestamp : Nat
  bestBid : Option ℚ
  bestAsk : Option ℚ
  midPrice : Option ℚ
  spread : Option ℚ
  bidLiquidity05Pct : Option ℚ
  askLiquidity05Pct : Option ℚ
  bidLiquidity2Pct : Option ℚ
  askLiquidity2Pct : Option ℚ
  bidLiquidity10Pct : Option ℚ
  askLiquidity10Pct : Option ℚ
  totalBidsQty : Option ℚ
  totalAsksQty : Option ℚ
  deriving DecidableEq

/-- `Collector.createSnapshot`: builds one persistence row from one book's
stats.  Mid price is computed (and non-null) only when both best prices are
non-zero and the best ask is strictly greater than the best bid; every other
numeric field is converted unconditionally. -/
def createSnapshot (symbol exchange : String) (stats : Stats) (now : Nat) :
    OrderbookSnapshotAPI :=
  let midPrice : Option ℚ :=
    if stats.bestBid ≠ 0 ∧ stats.bestAsk ≠ 0 ∧ stats.bestBid < stats.bestAsk then
      some (inexactFloat64 ((stats.bestBid + stats.bestAsk) / 2))
    else
      none
  { exchange := exchange
    symbol := symbol
    timestamp := now
    bestBid := some (inexactFloat64 stats.bestBid)
    bestAsk := some (inexactFloat64 stats.bestAsk)
    midPrice := midPrice
    spread := some (inexactFloat64 stats.spread)
    bidLiquidity05Pct := some (inexactFloat64 stats.bidLiquidity05Pct)
    askLiquidity05Pct := some (inexactFloat64 stats.askLiquidity05Pct)
    bidLiquidity2Pct := some (inexactFloat64 stats.bidLiquidity2Pct)
    askLiquidity2Pct := some (inexactFloat64 stats.askLiquidity2Pct)
    bidLiquidity10Pct := some (inexactFloat64 stats.bidLiquidity10Pct)
    askLiquidity10Pct := some (inexactFloat64 stats.askLiquidity10Pct)
    totalBidsQty := some (inexactFloat64 stats.totalBidsQty)
    totalAsksQty := some (inexactFloat64 stats.totalAsksQty) }

/-- One per-exchange block printed by `printCombinedStats`; only the header
line's fields are modelled (the depth lines copy `Stats` fields verbatim). -/
structure PrintedLine where
  name : String
  mid : ℚ
  spread : ℚ
  bestBid : ℚ
  bestAsk : ℚ
  deriving DecidableEq

/-- `printCombinedStats`: for each order book in the supervisor's list, skip
it when not initialized, otherwise print a block whose mid price is
`(BestBid + BestAsk) / 2`, computed unconditionally. -/
def printCombinedStats (books : List (String × BookView)) : List PrintedLine :=
  books.filterMap fun nb =>
    if nb.2.initialized then
      some { name := nb.1
             mid := (nb.2.stats.bestBid + nb.2.stats.bestAsk) / 2
             spread := nb.2.stats.spread
             bestBid := nb.2.stats.bestBid
             bestAsk := nb.2.stats.bestAsk }
    else
      none

/-- The row-building loop of `Collector.collectAndStore`: one row per
registered book that is initialized, skipping uninitialized books.  The
registry copy is a list of (exchange name, book view) pairs. -/
def collectRows (symbol : String) (now : Nat) (books : List (String × BookView)) :
    List OrderbookSnapshotAPI :=
  books.filterMap fun nb =>
    if nb.2.initialized then some (createSnapshot symbol nb.1 nb.2.stats now) else none

/-- `Collector.collectAndStore`, viewed as the list of batch calls it makes to
`InsertOrderbookSnapshotsBatch` on one tick: at most one call, carrying every
row built on that tick; no call when the registry is empty or no book is
initialized. -/
def collectAndStore (symbol : String) (now : Nat)
    (books : List (String × BookView)) : List (List OrderbookSnapshotAPI) :=
  if books.isEmpty then
    []
  else
    let rows := collectRows symbol now books
    if rows.isEmpty then [] else [rows]

/-- The collector's mutable state: the registered books, the symbol and the
enabled flag (`Collector`).  There is no queue of unsent rows. -/
structure CollectorState where
  symbol : String
  registry : List (String × BookView)
  enabled : Bool
  deriving DecidableEq

/-- One persistence tick (`collectAndStore` called from `Start`), with the
sink's success or failure as a parameter.  Returns the collector state after
the tick, the batch calls attempted, and whether a batch-failure error was
logged.  The Go method mutates nothing and returns nothing: a failed batch is
only logged. -/
def collectTick (st : CollectorState) (now : Nat) (sinkFails : Bool) :
    CollectorState × List (List OrderbookSnapshotAPI) × Bool :=
  let batches := collectAndStore st.symbol now st.registry
  (st, batches, sinkFails && !batches.isEmpty)

/-- One event on a pipeline goroutine's trace
(`startExchangesForSymbol`'s per-exchange closure).  A lifecycle event marks
the successful completion of the corresponding call. -/
inductive PipelineEvent where
  | create
  | connect
  | getSnapshot
  | loadSnapshot
  | handleDepthUpdate (i : Nat)
  | processBufferedEvents
  | registerMap
  | registerCollector
  | unregisterCollector
  | deleteMap
  | closeAdapter
  | logError (stage : String)
  | exitPipeline
  deriving DecidableEq

/-- Which of a pipeline's fallible startup steps succeed: exchange
construction (`factory.NewExchange`), `Connect`, `GetSnapshot`,
`LoadSnapshot`. -/
structure ExchangeBehavior where
  createOk : Bool
  connectOk : Bool
  snapshotOk : Bool
  loadOk : Bool
  deriving DecidableEq

/-- The trace of calls one pipeline goroutine makes, in program order
(`startExchangesForSymbol`, per-exchange closure).  On a failed step the
goroutine logs and returns (running the deferred `Close` when `Connect` had
succeeded).  On success: create, connect, fetch snapshot, load it, consume
`early` stream updates through `HandleDepthUpdate` (the consumer goroutine is
spawned only after `LoadSnapshot`; the book is not yet initialized, so these
buffer), then `ProcessBufferedEvents`, then registration in the supervisor
map followed by the collector; `late` further updates are consumed live;
on shutdown the pipeline unregisters from the collector, deletes its map
entry, closes the adapter and exits. -/
def runPipeline (b : ExchangeBehavior) (early late : Nat) : List PipelineEvent :=
  if !b.createOk then
    [.logError "create", .exitPipeline]
  else if !b.connectOk then
    [.create, .logError "connect", .exitPipeline]
  else if !b.snapshotOk then
    [.create, .connect, .logError "snapshot", .closeAdapter, .exitPipeline]
  else if !b.loadOk then
    [.create, .connect, .getSnapshot, .logError "load", .closeAdapter, .exitPipeline]
  else
    [.create, .connect, .getSnapshot, .loadSnapshot]
      ++ (List.range early).map .handleDepthUpdate
      ++ [.processBufferedEvents, .registerMap, .registerCollector]
      ++ (List.range late).map .handleDepthUpdate
      ++ [.unregisterCollector, .deleteMap, .closeAdapter, .exitPipeline]

/-- A behavior in which every startup step succeeds. -/
def ExchangeBehavior.allOk (b : ExchangeBehavior) : Prop :=
  b.createOk = true ∧ b.connectOk = true ∧ b.snapshotOk = true ∧ b.loadOk = true

/-- Is this event a depth-update delivery to the book? -/
def isDepthUpdate : PipelineEvent → Bool
  | .handleDepthUpdate _ => true
  | _ => false

/-- Is this event a registration-map or collector-registry operation? -/
def isRegistryOp : PipelineEvent → Bool
  | .registerMap => true
  | .registerCollector => true
  | .unregisterCollector => true
  | .deleteMap => true
  | _ => false

/-- Is this event one of the four lifecycle calls whose order claim C1
speaks about? -/
def isLifecycleCall : PipelineEvent → Bool
  | .connect => true
  | .getSnapshot => true
  | .loadSnapshot => true
  | .processBufferedEvents => true
  | _ => false

/-- The subsequence of lifecycle calls on a trace. -/
def lifecycleCalls (t : List PipelineEvent) : List PipelineEvent :=
  t.filter isLifecycleCall

/-- The subsequence of registry operations on a trace. -/
def registryOps (t : List PipelineEvent) : List PipelineEvent :=
  t.filter isRegistryOp

/-- Number of stream updates the pipeline hands to `HandleDepthUpdate`. -/
def depthUpdateCount (t : List PipelineEvent) : Nat :=
  (t.filter isDepthUpdate).length

/-- Does some `handleDepthUpdate` occur strictly before the first occurrence
of `stop` on the trace? -/
def depthUpdateBefore (t : List PipelineEvent) (stop : PipelineEvent) : Bool :=
  (t.takeWhile (fun x => x ≠ stop)).any isDepthUpdate

/-- The supervisor's order-book map (`orderbooksMap`), as the set of
registered exchange names. -/
def applyRegistry (name : String) (m : String → Bool) :
    List PipelineEvent → String → Bool
  | [] => m
  | .registerMap :: rest =>
      applyRegistry name (fun k => if k = name then true else m k) rest
  | .deleteMap :: rest =>
      applyRegistry name (fun k => if k = name then false else m k) rest
  | _ :: rest => applyRegistry name m rest

/-- An event of the supervisor run: an event of one named pipeline, or the
supervisor's own return (after `wg.Wait()`). -/
inductive SupEvent where
  | pipe (name : String) (e : PipelineEvent)
  | supervisorReturn
  deriving DecidableEq

/-- The inputs of one pipeline spawned by the supervisor. -/
structure PipelineInput where
  name : String
  behavior : ExchangeBehavior
  early : Nat
  late : Nat

/-- `startExchangesForSymbol`: spawn one pipeline per configured exchange and
return only after `wg.Wait()` joins them all.  Pipeline interleaving is
serialized arbitrarily (claims here concern only per-pipeline order and the
position of the supervisor's return, both preserved by any serialization). -/
def runSupervisor (ps : List PipelineInput) : List SupEvent :=
  (ps.map fun p =>
    (runPipeline p.behavior p.early p.late).map (SupEvent.pipe p.name)).flatten
    ++ [.supervisorReturn]

/-- The documented default Supabase URL used when `SUPABASE_URL` is unset. -/
def defaultSupabaseURL : String := "https://qlcmrsbvdmyflllavyzc.supabase.co"

/-- Outcome of `getSupabaseConfig`: either a fatal startup error
(`log.Fatal`, which exits the process with a non-zero code) or the resolved
(base URL, API key) pair. -/
inductive SupabaseConfig where
  | fatal (msg : String)
  | ok (baseURL apiKey : String)
  deriving DecidableEq

/-- The process environment, as `os.Getenv` sees it: an unset variable reads
as the empty string. -/
def GoEnv : Type := String → String

/-- `getSupabaseConfig`: read `SUPABASE_URL` and `SUPABASE_ANON_KEY`; default
the URL when empty; fatal when the key is empty.  The second component lists
the environment variables read. -/
def getSupabaseConfig (env : GoEnv) : SupabaseConfig × List String :=
  let baseURL := env "SUPABASE_URL"
  let apiKey := env "SUPABASE_ANON_KEY"
  let baseURL := if baseURL = "" then defaultSupabaseURL else baseURL
  let result :=
    if apiKey = "" then
      SupabaseConfig.fatal "SUPABASE_ANON_KEY environment variable is required"
    else
      SupabaseConfig.ok baseURL apiKey
  (result, ["SUPABASE_URL", "SUPABASE_ANON_KEY"])

/-- The database-initialization prefix of `runMultiExchange`:
`getSupabaseConfig` runs only when `--db-enabled` is set. -/
def startupDbConfig (dbEnabled : Bool) (env : GoEnv) : Option SupabaseConfig :=
  if dbEnabled then some (getSupabaseConfig env).1 else none

/-- The environment variables `runMultiExchange` reads at startup. -/
def startupEnvReads (dbEnabled : Bool) (env : GoEnv) : List String :=
  if dbEnabled then (getSupabaseConfig env).2 else []

/-- A JSON value, as produced by Go's `encoding/json`. -/
inductive Json where
  | null
  | str (s : String)
  | num (q : ℚ)
  | arr (xs : List Json)
  | obj (fields : List (String × Json))

/-- Marshalling of a `*float64`: `nil` becomes JSON null. -/
def optFloatJson : Option ℚ → Json
  | none => Json.null
  | some q => Json.num q

/-- RFC 3339 rendering of the abstracted timestamp (Go marshals `time.Time`
as an RFC 3339 string); the exact text is immaterial to the claims. -/
def rfc3339 (t : Nat) : String := toString t

/-- `json.Marshal` of one `OrderbookSnapshotAPI` row: an object whose keys
and order come from the struct's json tags. -/
def snapshotToJson (r : OrderbookSnapshotAPI) : Json :=
  Json.obj
    [("exchange", Json.str r.exchange),
     ("symbol", Json.str r.symbol),
     ("timestamp", Json.str (rfc3339 r.timestamp)),
     ("best_bid", optFloatJson r.bestBid),
     ("best_ask", optFloatJson r.bestAsk),
     ("mid_price", optFloatJson r.midPrice),
     ("spread", optFloatJson r.spread),
     ("bid_liquidity_05_pct", optFloatJson r.bidLiquidity05Pct),
     ("ask_liquidity_05_pct", optFloatJson r.askLiquidity05Pct),
     ("bid_liquidity_2_pct", optFloatJson r.bidLiquidity2Pct),
     ("ask_liquidity_2_pct", optFloatJson r.askLiquidity2Pct),
     ("bid_liquidity_10_pct", optFloatJson r.bidLiquidity10Pct),
     ("ask_liquidity_10_pct", optFloatJson r.askLiquidity10Pct),
     ("total_bids_qty", optFloatJson r.totalBidsQty),
     ("total_asks_qty", optFloatJson r.totalAsksQty)]

/-- `json.Marshal` of the batch slice in `InsertOrderbookSnapshotsBatch`: a
single JSON array of row objects. -/
def batchToJson (rs : List OrderbookSnapshotAPI) : Json :=
  Json.arr (rs.map snapshotToJson)

/-- The keys of a JSON object. -/
def Json.objKeys : Json → List String
  | .obj fields => fields.map Prod.fst
  | _ => []

/-- Look up a key in a JSON object. -/
def Json.objGet (j : Json) (k : String) : Option Json :=
  match j with
  | .obj fields => (fields.find? fun f => f.1 = k).map Prod.snd
  | _ => none

/-- Is this JSON value a nullable number (null or a number)? -/
def Json.isNullableNum : Json → Bool
  | .null => true
  | .num _ => true
  | _ => false

/-- The row's numeric columns, by json tag. -/
def numericSnapshotKeys : List String :=
  ["best_bid", "best_ask", "mid_price", "spread",
   "bid_liquidity_05_pct", "ask_liquidity_05_pct",
   "bid_liquidity_2_pct", "ask_liquidity_2_pct",
   "bid_liquidity_10_pct", "ask_liquidity_10_pct",
   "total_bids_qty", "total_asks_qty"]

/-- The outcome of the HTTP effects `InsertOrderbookSnapshotsBatch` may
perform: whether `http.NewRequest` succeeds, whether `client.Do` succeeds,
and the response status code when it does. -/
structure HttpWorld where
  buildOk : Bool
  execOk : Bool
  status : Nat
  deriving DecidableEq

/-- `SupabaseAPIClient.InsertOrderbookSnapshotsBatch`: empty batch returns
nil immediately; otherwise marshal (total for this payload type), build the
request, execute it, and require a 2xx status.  Returns (error message if
any, number of HTTP requests executed). -/
def insertOrderbookSnapshotsBatch (w : HttpWorld)
    (snapshots : List OrderbookSnapshotAPI) : Option String × Nat :=
  if snapshots.isEmpty then
    (none, 0)
  else if !w.buildOk then
    (some "failed to create request", 0)
  else if !w.execOk then
    (some "failed to execute request", 1)
  else if w.status < 200 ∨ 300 ≤ w.status then
    (some "API request failed", 1)
  else
    (none, 1)

/-- A `Stats` value with the given best bid and ask (remaining fields fixed);
used to instantiate theorems at concrete book states. -/
def mkStats (bb ba : ℚ) : Stats :=
  { bestBid := bb
    bestAsk := ba
    spread := ba - bb
    bidLiquidity05Pct := 1
    askLiquidity05Pct := 1
    bidLiquidity2Pct := 1
    askLiquidity2Pct := 1
    bidLiquidity10Pct := 1
    askLiquidity10Pct := 1
    deltaLiquidity05Pct := 0
    deltaLiquidity2Pct := 0
    deltaLiquidity10Pct := 0
    totalBidsQty := 1
    totalAsksQty := 1 }

/-- A behavior whose four startup steps all succeed. -/
def okBehavior : ExchangeBehavior :=
  { createOk := true, connectOk := true, snapshotOk := true, loadOk := true }

/-- Some pipeline startup step fails: exchange construction, connect,
snapshot fetch, or snapshot load. -/
def ExchangeBehavior.failsStartup (b : ExchangeBehavior) : Prop :=
  b.createOk = false ∨ b.connectOk = false ∨ b.snapshotOk = false ∨ b.loadOk = false

/-- Is this event an error log? -/
def isLogError : PipelineEvent → Bool
  | .logError _ => true
  | _ => false

/-- A two-book registry: one initialized book and one uninitialized book. -/
def demoBooks : List (String × BookView) :=
  [("binance", { initialized := true, stats := mkStats 99 100 }),
   ("kraken", { initialized := false, stats := mkStats 50 51 })]

/-- Claim C2 as stated: whenever both sides are non-empty (observable as
non-zero best prices), the printed mid and the persistence row's mid both
equal `(best_bid + best_ask) / 2`. -/
def claimC2 : Prop :=
  ∀ (name symbol : String) (bv : BookView) (now : Nat),
    bv.initialized = true →
    bv.stats.bestBid ≠ 0 →
    bv.stats.bestAsk ≠ 0 →
    printCombinedStats [(name, bv)] =
      [{ name := name
         mid := (bv.stats.bestBid + bv.stats.bestAsk) / 2
         spread := bv.stats.spread
         bestBid := bv.stats.bestBid
         bestAsk := bv.stats.bestAsk }] ∧
    (createSnapshot symbol name bv.stats now).midPrice =
      some ((bv.stats.bestBid + bv.stats.bestAsk) / 2)

/-- The prefix of a pipeline trace before `ProcessBufferedEvents` completes
initialization. -/
def preInit (t : List PipelineEvent) : List PipelineEvent :=
  t.takeWhile fun x => x ≠ PipelineEvent.processBufferedEvents

/-- Claim C1 as stated: on a successful startup that receives at least one
stream update before the snapshot load, the pipeline performs connect, then
buffers updates into the book via `HandleDepthUpdate` (so some update
delivery precedes the snapshot fetch), then `GetSnapshot`, then
`LoadSnapshot` followed by `ProcessBufferedEvents`, and discards no update. -/
def claimC1 : Prop :=
  ∀ (b : ExchangeBehavior) (early late : Nat),
    b.allOk → 1 ≤ early →
    lifecycleCalls (runPipeline b early late) =
      [.connect, .getSnapshot, .loadSnapshot, .processBufferedEvents] ∧
    depthUpdateBefore (runPipeline b early late) PipelineEvent.getSnapshot = true ∧
    depthUpdateCount (runPipeline b early late) = early + late

theorem filter_hduMap_eq_nil (p : PipelineEvent → Bool)
    (hp : ∀ i, p (PipelineEvent.handleDepthUpdate i) = false) (l : List Nat) :
    (l.map PipelineEvent.handleDepthUpdate).filter p = [] := by
  induction l with
  | nil => rfl
  | cons a l ih => simp [List.filter_cons, hp, ih]

theorem filter_hduMap_eq_self (l : List Nat) :
    (l.map PipelineEvent.handleDepthUpdate).filter isDepthUpdate
      = l.map PipelineEvent.handleDepthUpdate := by
  induction l with
  | nil => rfl
  | cons a l ih => simp [List.filter_cons, isDepthUpdate, ih]

theorem takeWhile_append_of_all {α : Type} (p : α → Bool) (l₁ l₂ : List α)
    (h : ∀ x ∈ l₁, p x = true) :
    (l₁ ++ l₂).takeWhile p = l₁ ++ l₂.takeWhile p := by
  induction l₁ with
  | nil => rfl
  | cons a l ih =>
      have ha := h a (List.mem_cons_self a l)
      simp [List.takeWhile_cons, ha, ih (fun x hx => h x (List.mem_cons_of_mem a hx))]

theorem runPipeline_allOk (b : ExchangeBehavior) (early late : Nat)
    (h : b.allOk) :
    runPipeline b early late =
      [.create, .connect, .getSnapshot, .loadSnapshot]
        ++ (List.range early).map .handleDepthUpdate
        ++ [.processBufferedEvents, .registerMap, .registerCollector]
        ++ (List.range late).map .handleDepthUpdate
        ++ [.unregisterCollector, .deleteMap, .closeAdapter, .exitPipeline] := by
  obtain ⟨h1, h2, h3, h4⟩ := h
  simp [runPipeline, h1, h2, h3, h4]

theorem hduMap_ne_pbe (l : List Nat) :
    ∀ x ∈ l.map PipelineEvent.handleDepthUpdate,
      (fun y => decide (y ≠ PipelineEvent.processBufferedEvents)) x = true := by
  intro x hx
  rcases List.mem_map.1 hx with ⟨i, _, rfl⟩
  simp

theorem registry_lifecycle_ok (early late : Nat) :
    (preInit (runPipeline ⟨true, true, true, true⟩ early late)).filter isRegistryOp = [] ∧
    registryOps (runPipeline ⟨true, true, true, true⟩ early late) =
      [.registerMap, .registerCollector, .unregisterCollector, .deleteMap] := by
  rw [runPipeline_allOk ⟨true, true, true, true⟩ early late ⟨rfl, rfl, rfl, rfl⟩]
  constructor
  · simp only [preInit, List.append_assoc, List.cons_append, List.nil_append,
      List.takeWhile_cons]
    simp only [ne_eq, reduceCtorEq, not_false_eq_true, decide_True, if_true]
    rw [takeWhile_append_of_all _ _ _ (hduMap_ne_pbe (List.range early)),
      List.takeWhile_cons]
    simp [List.filter_cons, isRegistryOp,
      filter_hduMap_eq_nil isRegistryOp (fun i => rfl)]
  · simp [registryOps, List.filter_append, List.filter_cons, isRegistryOp,
      filter_hduMap_eq_nil isRegistryOp (fun i => rfl)]

theorem optFloatJson_isNullableNum (o : Option ℚ) :
    (optFloatJson o).isNullableNum = true := by
  cases o <;> rfl

theorem collectRows_eq_map_filter (symbol : String) (now : Nat)
    (books : List (String × BookView)) :
    collectRows symbol now books =
      (books.filter fun nb => nb.2.initialized).map
        (fun nb => createSnapshot symbol nb.1 nb.2.stats now) := by
  induction books with
  | nil => rfl
  | cons nb books ih =>
      by_cases hi : nb.2.initialized
      · simp [collectRows, List.filterMap_cons, List.filter_cons, hi] at ih ⊢
        exact ih
      · simp only [Bool.not_eq_true] at hi
        simp [collectRows, List.filterMap_cons, List.filter_cons, hi] at ih ⊢
        exact ih

/-- Claim C9: in every persistence row built by `createSnapshot`, every
numeric field other than `mid_price` is non-null, and `mid_price` is null
exactly when the best bid is zero, the best ask is zero, or the best ask is
not strictly greater than the best bid. -/
theorem createSnapshot_nullability (symbol exchange : String) (stats : Stats)
    (now : Nat) :
    ((createSnapshot symbol exchange stats now).bestBid.isSome = true ∧
     (createSnapshot symbol exchange stats now).bestAsk.isSome = true ∧
     (createSnapshot symbol exchange stats now).spread.isSome = true ∧
     (createSnapshot symbol exchange stats now).bidLiquidity05Pct.isSome = true ∧
     (createSnapshot symbol exchange stats now).askLiquidity05Pct.isSome = true ∧
     (createSnapshot symbol exchange stats now).bidLiquidity2Pct.isSome = true ∧
     (createSnapshot symbol exchange stats now).askLiquidity2Pct.isSome = true ∧
     (createSnapshot symbol exchange stats now).bidLiquidity10Pct.isSome = true ∧
     (createSnapshot symbol exchange stats now).askLiquidity10Pct.isSome = true ∧
     (createSnapshot symbol exchange stats now).totalBidsQty.isSome = true ∧
     (createSnapshot symbol exchange stats now).totalAsksQty.isSome = true) ∧
    ((createSnapshot symbol exchange stats now).midPrice = none ↔
      stats.bestBid = 0 ∨ stats.bestAsk = 0 ∨ ¬ stats.bestBid < stats.bestAsk) := by
  constructor
  · simp [createSnapshot]
  · by_cases h1 : stats.bestBid = 0
    · simp [createSnapshot, h1]
    · by_cases h2 : stats.bestAsk = 0
      · simp [createSnapshot, h1, h2]
      · by_cases h3 : stats.bestBid < stats.bestAsk
        · simp [createSnapshot, h1, h2, h3]
        · simp [createSnapshot, h1, h2, h3]

/-- Claim C2, counterexample: in a crossed book (best bid 100, best ask 99,
both sides non-empty) the persistence row's mid price is null rather than
`(100 + 99) / 2`; the claim as stated is false. -/
theorem claimC2_false : ¬ claimC2 := by
  intro h
  have h2 := (h "kraken" "BTCUSDT"
    { initialized := true, stats := mkStats 100 99 } 0
    rfl (by norm_num [mkStats]) (by norm_num [mkStats])).2
  rw [createSnapshot] at h2
  norm_num [mkStats] at h2
  exact Option.noConfusion h2

/-- Claim C2, amended: when both sides are non-empty and the best bid is
strictly below the best ask, the printed stats and the persistence row both
report `mid = (best_bid + best_ask) / 2` (the printed stats compute it
unconditionally; the row nulls it for crossed or one-sided books). -/
theorem midPrice_eq_average (name symbol : String) (bv : BookView) (now : Nat)
    (hinit : bv.initialized = true)
    (hbb : bv.stats.bestBid ≠ 0)
    (hba : bv.stats.bestAsk ≠ 0)
    (hlt : bv.stats.bestBid < bv.stats.bestAsk) :
    printCombinedStats [(name, bv)] =
      [{ name := name
         mid := (bv.stats.bestBid + bv.stats.bestAsk) / 2
         spread := bv.stats.spread
         bestBid := bv.stats.bestBid
         bestAsk := bv.stats.bestAsk }] ∧
    (createSnapshot symbol name bv.stats now).midPrice =
      some ((bv.stats.bestBid + bv.stats.bestAsk) / 2) := by
  constructor
  · simp [printCombinedStats, hinit]
  · simp [createSnapshot, inexactFloat64, hbb, hba, hlt]

/-- Witness for the amended claim C2, at best bid 99 and best ask 100. -/
theorem midPrice_eq_average_witness :
    printCombinedStats [("binance", { initialized := true, stats := mkStats 99 100 })] =
      [{ name := "binance", mid := 199 / 2, spread := 1, bestBid := 99, bestAsk := 100 }] ∧
    (createSnapshot "BTCUSDT" "binance" (mkStats 99 100) 7).midPrice = some (199 / 2) := by
  have h := midPrice_eq_average "binance" "BTCUSDT"
    { initialized := true, stats := mkStats 99 100 } 7
    rfl (by norm_num [mkStats]) (by norm_num [mkStats]) (by norm_num [mkStats])
  constructor
  · rw [h.1]
    norm_num [mkStats]
  · rw [h.2]
    norm_num [mkStats]

/-- Claim C3: on a persistence tick, the collector builds exactly one row per
registered initialized book (skipping uninitialized ones) and ships all rows
of the tick in a single batch call; no call is made when no rows were
built. -/
theorem collectAndStore_one_batch (symbol : String) (now : Nat)
    (books : List (String × BookView)) :
    collectRows symbol now books =
      (books.filter fun nb => nb.2.initialized).map
        (fun nb => createSnapshot symbol nb.1 nb.2.stats now) ∧
    (collectRows symbol now books ≠ [] →
      collectAndStore symbol now books = [collectRows symbol now books]) ∧
    (collectRows symbol now books = [] →
      collectAndStore symbol now books = []) := by
  refine ⟨collectRows_eq_map_filter symbol now books, fun hne => ?_, fun he => ?_⟩
  · have hb : books.isEmpty = false := by
      cases books with
      | nil => exact absurd rfl hne
      | cons x xs => rfl
    have hr : (collectRows symbol now books).isEmpty = false := by
      cases hcr : collectRows symbol now books with
      | nil => exact absurd hcr hne
      | cons x xs => rfl
    simp [collectAndStore, hb, hr]
  · by_cases hb : books.isEmpty
    · simp [collectAndStore, hb]
    · simp [collectAndStore, hb, he]

/-- Witness for claim C3, on a registry with one initialized and one
uninitialized book: one row is built (for the initialized book only) and one
batch call carries it. -/
theorem collectAndStore_one_batch_witness :
    collectAndStore "BTCUSDT" 3 demoBooks = [collectRows "BTCUSDT" 3 demoBooks] ∧
    collectRows "BTCUSDT" 3 demoBooks =
      [createSnapshot "BTCUSDT" "binance" (mkStats 99 100) 3] := by
  constructor
  · exact (collectAndStore_one_batch "BTCUSDT" 3 demoBooks).2.1
      (by simp [collectRows, demoBooks])
  · simp [collectRows, demoBooks]

/-- Claim C4: when shipping a batch fails, the collector logs the error and
discards the batch: the collector state (registry, symbol, enabled flag) is
unchanged by the failure, no retry queue exists, and the next tick's
collection is computed from the current registry alone, unaffected by the
earlier failure. -/
theorem collectTick_failure_discards (st : CollectorState) (now now2 : Nat)
    (sinkFails sinkFails2 : Bool) :
    (collectTick st now sinkFails).1 = st ∧
    (collectTick st now sinkFails).2.1 = collectAndStore st.symbol now st.registry ∧
    (collectTick st now sinkFails).2.2 =
      (sinkFails && !(collectAndStore st.symbol now st.registry).isEmpty) ∧
    collectTick (collectTick st now sinkFails).1 now2 sinkFails2 =
      collectTick st now2 sinkFails2 := by
  exact ⟨rfl, rfl, rfl, rfl⟩

/-- Claim C10: `InsertOrderbookSnapshotsBatch` on an empty list returns no
error and performs no HTTP request; on a non-empty list it returns an error
exactly when the request cannot be built, cannot be executed, or the response
status falls outside 200..299. -/
theorem insertBatch_error_conditions (w : HttpWorld) :
    insertOrderbookSnapshotsBatch w [] = (none, 0) ∧
    ∀ (s : OrderbookSnapshotAPI) (ss : List OrderbookSnapshotAPI),
      ((insertOrderbookSnapshotsBatch w (s :: ss)).1.isSome = true ↔
        w.buildOk = false ∨ w.execOk = false ∨ w.status < 200 ∨ 300 ≤ w.status) := by
  refine ⟨rfl, fun s ss => ?_⟩
  obtain ⟨bOk, eOk, status⟩ := w
  cases bOk
  · simp [insertOrderbookSnapshotsBatch]
  · cases eOk
    · simp [insertOrderbookSnapshotsBatch]
    · by_cases hs : status < 200 ∨ 300 ≤ status
      · simp [insertOrderbookSnapshotsBatch, hs]
      · simp [insertOrderbookSnapshotsBatch, hs]

/-- Witness for claim C10: with a working transport and status 201, an empty
batch makes no request and a singleton batch returns no error. -/
theorem insertBatch_error_conditions_witness :
    insertOrderbookSnapshotsBatch { buildOk := true, execOk := true, status := 201 } [] =
      (none, 0) ∧
    ((insertOrderbookSnapshotsBatch { buildOk := true, execOk := true, status := 201 }
        [createSnapshot "BTCUSDT" "binance" (mkStats 99 100) 0]).1.isSome = true ↔
      False) := by
  constructor
  · exact (insertBatch_error_conditions _).1
  · rw [(insertBatch_error_conditions _).2 (createSnapshot "BTCUSDT" "binance" (mkStats 99 100) 0) []]
    norm_num

/-- Claim C6: with persistence enabled, an unset `SUPABASE_ANON_KEY` is fatal
at startup (`log.Fatal` exits the process with a non-zero code); an unset
`SUPABASE_URL` falls back to the documented default; with persistence
disabled neither variable is read. -/
theorem supabase_env_config (env : GoEnv) :
    (env "SUPABASE_ANON_KEY" = "" →
      startupDbConfig true env =
        some (SupabaseConfig.fatal "SUPABASE_ANON_KEY environment variable is required")) ∧
    (env "SUPABASE_ANON_KEY" ≠ "" → env "SUPABASE_URL" = "" →
      startupDbConfig true env =
        some (SupabaseConfig.ok defaultSupabaseURL (env "SUPABASE_ANON_KEY"))) ∧
    startupEnvReads false env = [] := by
  refine ⟨fun h => ?_, fun h1 h2 => ?_, rfl⟩
  · simp [startupDbConfig, getSupabaseConfig, h]
  · simp [startupDbConfig, getSupabaseConfig, h1, h2]

/-- Witness for claim C6: with every variable unset startup is fatal; with
only the key set the default URL is used; with persistence disabled nothing
is read. -/
theorem supabase_env_config_witness :
    startupDbConfig true (fun _ => "") =
      some (SupabaseConfig.fatal "SUPABASE_ANON_KEY environment variable is required") ∧
    startupDbConfig true (fun v => if v = "SUPABASE_ANON_KEY" then "k" else "") =
      some (SupabaseConfig.ok defaultSupabaseURL "k") ∧
    startupEnvReads false (fun _ => "") = [] := by
  refine ⟨(supabase_env_config (fun _ => "")).1 rfl, ?_, (supabase_env_config (fun _ => "")).2.2⟩
  have h := (supabase_env_config (fun v => if v = "SUPABASE_ANON_KEY" then "k" else "")).2.1
    (by simp) (by simp)
  simpa using h

/-- Claim C5: every persistence row marshals to a JSON object with exactly
the documented keys (exchange, symbol, timestamp, best bid/ask, mid price,
spread, bid/ask liquidity at 0.5%, 2% and 10%, and total bid/ask
quantities); every numeric field is a nullable number; and a batch marshals
as one JSON array of row objects. -/
theorem snapshot_payload_shape (r : OrderbookSnapshotAPI)
    (rs : List OrderbookSnapshotAPI) :
    (snapshotToJson r).objKeys =
      ["exchange", "symbol", "timestamp", "best_bid", "best_ask", "mid_price",
       "spread", "bid_liquidity_05_pct", "ask_liquidity_05_pct",
       "bid_liquidity_2_pct", "ask_liquidity_2_pct", "bid_liquidity_10_pct",
       "ask_liquidity_10_pct", "total_bids_qty", "total_asks_qty"] ∧
    (∀ k ∈ numericSnapshotKeys,
      ∃ v, (snapshotToJson r).objGet k = some v ∧ v.isNullableNum = true) ∧
    batchToJson rs = Json.arr (rs.map snapshotToJson) := by
  refine ⟨rfl, fun k hk => ?_, rfl⟩
  simp only [numericSnapshotKeys, List.mem_cons, List.not_mem_nil, or_false] at hk
  rcases hk with rfl | rfl | rfl | rfl | rfl | rfl | rfl | rfl | rfl | rfl | rfl | rfl <;>
    exact ⟨_, rfl, optFloatJson_isNullableNum _⟩

/-- Witness for claim C5 at one concrete row: the `mid_price` column of a
crossed book's row marshals to JSON null while `best_bid` marshals to a
number. -/
theorem snapshot_payload_shape_witness :
    (∃ v, (snapshotToJson (createSnapshot "BTCUSDT" "kraken" (mkStats 100 99) 0)).objGet
        "mid_price" = some v ∧ v.isNullableNum = true) ∧
    batchToJson [] = Json.arr [] := by
  constructor
  · exact (snapshot_payload_shape (createSnapshot "BTCUSDT" "kraken" (mkStats 100 99) 0)
      []).2.1 "mid_price" (by simp [numericSnapshotKeys])
  · exact (snapshot_payload_shape
      (createSnapshot "BTCUSDT" "kraken" (mkStats 100 99) 0) []).2.2

/-- Claim C1, counterexample: on a successful startup that receives one
stream update, `GetSnapshot` occurs on the trace with no
`HandleDepthUpdate` before it — the pipeline fetches the snapshot first and
only then begins handing stream updates to the book, so the claimed
buffer-before-snapshot-fetch order is false of the code. -/
theorem claimC1_false : ¬ claimC1 := by
  intro h
  have h2 := (h okBehavior 1 0 ⟨rfl, rfl, rfl, rfl⟩ (by norm_num)).2.1
  have h3 : depthUpdateBefore (runPipeline okBehavior 1 0)
      PipelineEvent.getSnapshot = false := by decide
  rw [h3] at h2
  exact Bool.noConfusion h2

/-- Claim C1, amended: on a successful startup the pipeline performs
connect, then `GetSnapshot`, then `LoadSnapshot`, then buffers the pending
stream updates via `HandleDepthUpdate` (none is applied before the snapshot
is loaded), then `ProcessBufferedEvents`; every update the stream delivers is
handed to `HandleDepthUpdate` — none is discarded. -/
theorem startup_order (b : ExchangeBehavior) (early late : Nat) (h : b.allOk) :
    lifecycleCalls (runPipeline b early late) =
      [.connect, .getSnapshot, .loadSnapshot, .processBufferedEvents] ∧
    depthUpdateBefore (runPipeline b early late) PipelineEvent.loadSnapshot = false ∧
    (preInit (runPipeline b early late)).filter isDepthUpdate =
      (List.range early).map PipelineEvent.handleDepthUpdate ∧
    depthUpdateCount (runPipeline b early late) = early + late := by
  rw [runPipeline_allOk b early late h]
  have hall : ∀ x ∈ (List.range early).map PipelineEvent.handleDepthUpdate,
      (fun y => decide (y ≠ PipelineEvent.processBufferedEvents)) x = true := by
    intro x hx
    rcases List.mem_map.1 hx with ⟨i, _, rfl⟩
    simp
  refine ⟨?_, ?_, ?_, ?_⟩
  · simp [lifecycleCalls, List.filter_append, List.filter_cons, isLifecycleCall,
      filter_hduMap_eq_nil isLifecycleCall (fun i => rfl)]
  · rfl
  · simp only [preInit, List.append_assoc, List.cons_append, List.nil_append,
      List.takeWhile_cons]
    simp only [ne_eq, reduceCtorEq, not_false_eq_true, decide_True, if_true]
    rw [takeWhile_append_of_all _ _ _ hall, List.takeWhile_cons]
    simp [List.filter_cons, isDepthUpdate, filter_hduMap_eq_self]
  · simp [depthUpdateCount, List.filter_append, List.filter_cons, isDepthUpdate,
      filter_hduMap_eq_self]

/-- Witness for the amended claim C1: a successful startup with two updates
buffered before initialization and one consumed live. -/
theorem startup_order_witness :
    lifecycleCalls (runPipeline okBehavior 2 1) =
      [.connect, .getSnapshot, .loadSnapshot, .processBufferedEvents] ∧
    depthUpdateBefore (runPipeline okBehavior 2 1) PipelineEvent.loadSnapshot = false ∧
    (preInit (runPipeline okBehavior 2 1)).filter isDepthUpdate =
      (List.range 2).map PipelineEvent.handleDepthUpdate ∧
    depthUpdateCount (runPipeline okBehavior 2 1) = 2 + 1 :=
  startup_order okBehavior 2 1 ⟨rfl, rfl, rfl, rfl⟩

/-- Claim C7: a pipeline whose exchange construction, connect, snapshot
fetch, or snapshot load fails logs an error and exits without registering its
book with the collector or the supervisor map, and leaves the shared
supervisor map — hence every other pipeline's state — unchanged. -/
theorem pipeline_failure_containment (b : ExchangeBehavior) (early late : Nat)
    (h : b.failsStartup) :
    registryOps (runPipeline b early late) = [] ∧
    (runPipeline b early late).any isLogError = true ∧
    (runPipeline b early late).getLast? = some PipelineEvent.exitPipeline ∧
    ∀ (name : String) (m : String → Bool),
      applyRegistry name m (runPipeline b early late) = m := by
  obtain ⟨cOk, nOk, sOk, lOk⟩ := b
  cases cOk <;> cases nOk <;> cases sOk <;> cases lOk <;>
    first
      | exact ⟨rfl, rfl, rfl, fun name m => rfl⟩
      | (rcases h with h | h | h | h <;> exact Bool.noConfusion h)

/-- Witness for claim C7: a pipeline whose connect fails performs no registry
operation and leaves an empty supervisor map empty. -/
theorem pipeline_failure_containment_witness :
    registryOps (runPipeline ⟨true, false, true, true⟩ 0 0) = [] ∧
    applyRegistry "bybit" (fun _ => false) (runPipeline ⟨true, false, true, true⟩ 0 0) =
      fun _ => false := by
  have h := pipeline_failure_containment ⟨true, false, true, true⟩ 0 0
    (Or.inr (Or.inl rfl))
  exact ⟨h.1, h.2.2.2 "bybit" (fun _ => false)⟩

/-- Claim C8: a pipeline performs no registry operation before
`ProcessBufferedEvents` completes initialization; its registry operations are
either none (it never initialized) or exactly map-register, collector-register,
collector-unregister, map-delete in that order; and the supervisor returns
only after every spawned pipeline's whole trace, its exit included. -/
theorem registration_lifecycle :
    (∀ (b : ExchangeBehavior) (early late : Nat),
      (preInit (runPipeline b early late)).filter isRegistryOp = [] ∧
      (registryOps (runPipeline b early late) = [] ∨
       registryOps (runPipeline b early late) =
         [.registerMap, .registerCollector, .unregisterCollector, .deleteMap])) ∧
    (∀ ps : List PipelineInput,
      (runSupervisor ps).getLast? = some SupEvent.supervisorReturn ∧
      ∀ p ∈ ps, ∀ e ∈ runPipeline p.behavior p.early p.late,
        SupEvent.pipe p.name e ∈ (runSupervisor ps).dropLast) := by
  constructor
  · intro b early late
    obtain ⟨cOk, nOk, sOk, lOk⟩ := b
    cases cOk <;> cases nOk <;> cases sOk <;> cases lOk <;>
      first
        | exact ⟨rfl, Or.inl rfl⟩
        | exact ⟨(registry_lifecycle_ok early late).1,
            Or.inr (registry_lifecycle_ok early late).2⟩
  · intro ps
    constructor
    · rw [runSupervisor]
      exact List.getLast?_concat _
    · intro p hp e he
      rw [runSupervisor, List.dropLast_concat]
      exact List.mem_flatten.2 ⟨_, List.mem_map_of_mem _ hp, List.mem_map_of_mem _ he⟩

/-- Witness for claim C8: one successful pipeline registers after
initialization and unregisters before exit, and the supervisor's return is
the last event, after that pipeline's exit. -/
theorem registration_lifecycle_witness :
    registryOps (runPipeline ⟨true, true, true, true⟩ 1 1) =
      [.registerMap, .registerCollector, .unregisterCollector, .deleteMap] ∧
    (runSupervisor [⟨"binance", ⟨true, true, true, true⟩, 1, 1⟩]).getLast? =
      some SupEvent.supervisorReturn ∧
    SupEvent.pipe "binance" PipelineEvent.exitPipeline ∈
      (runSupervisor [⟨"binance", ⟨true, true, true, true⟩, 1, 1⟩]).dropLast := by
  refine ⟨?_, ?_, ?_⟩
  · rcases (registration_lifecycle.1 ⟨true, true, true, true⟩ 1 1).2 with h | h
    · exact absurd h (by decide)
    · exact h
  · exact (registration_lifecycle.2 [⟨"binance", ⟨true, true, true, true⟩, 1, 1⟩]).1
  · exact (registration_lifecycle.2 [⟨"binance", ⟨true, true, true, true⟩, 1, 1⟩]).2
      ⟨"binance", ⟨true, true, true, true⟩, 1, 1⟩ (by simp)
      PipelineEvent.exitPipeline (by decide)
